import Mathlib

/-!
Shallow embedding of the CC-F25/users-microservice service (src/main.py,
src/models/user.py, src/models/user_sql.py) and proofs about the claims of
its specification.

Conventions of the embedding:
* The MySQL `users` table (`UserDB` in src/models/user_sql.py) is a list of
  `Account` records in insertion order; "store-native order" is list order.
* Timestamps (`datetime.utcnow`, `int(time.time())`) are `Nat` instants.
* The JOSE JWT library is modelled symbolically: a signed token is its
  payload together with the secret it was signed with, and decoding with a
  secret succeeds exactly when that secret matches and the token is not
  expired (python-jose raises `ExpiredSignatureError` when `exp < now`).
* The Pub/Sub publisher is `Option Bool`: `none` means no
  `GCP_PROJECT_ID`/`PUBSUB_TOPIC` configured (module-level `publisher` is
  `None`), `some true` a configured publisher whose `publish(...).result()`
  succeeds, `some false` one whose `result()` raises. The list of events a
  handler returns are the messages actually delivered to the bus.
* FastAPI plumbing (routing, request validation, response serialization,
  `Depends`) is out of scope; each handler is a function of its already
  validated inputs.  The route table built by the `@app` decorators is
  embedded as `appRoutes`.
* An unhandled Python exception in a handler body (e.g. `IntegrityError`
  from `db.commit()`, or `AttributeError` from reading a missing pydantic
  attribute) surfaces as an internal-server-error response; the SQLAlchemy
  session from `get_db` is closed without commit, rolling back any
  uncommitted changes, so the store is returned unchanged in those branches.
-/

namespace UsersService

/-- A row of the `users` table, src/models/user_sql.py `UserDB`:
`id` primary key, `email` unique and non-null, `name`/`phone_number`/`bio`/
`location` nullable, `created_at`/`updated_at` datetime columns. -/
structure Account where
  id : String
  name : Option String
  email : String
  phone_number : Option String
  bio : Option String
  location : Option String
  created_at : Nat
  updated_at : Nat
deriving DecidableEq, Repr

/-- The persistent store: rows of the `users` table in store-native
(insertion) order. -/
abbrev Store := List Account

/-- Claim set of a service JWT, the dict built in `generate_token`
(src/main.py lines 47-56): `sub`, `email`, `iat`, `exp`, `typ`. -/
structure JWTPayload where
  sub : String
  email : String
  iat : Nat
  exp : Nat
  typ : String
deriving DecidableEq, Repr

/-- Symbolic model of `jwt.encode(payload, secret, algorithm)`: the signed
token carries its payload and the secret that signed it. -/
structure SignedToken where
  payload : JWTPayload
  signedWith : String
deriving DecidableEq, Repr

def jwt_encode (p : JWTPayload) (secret : String) : SignedToken :=
  ⟨p, secret⟩

/-- Symbolic model of `jwt.decode(token, secret, algorithms)`: succeeds iff
the verifying secret equals the signing secret and the token is unexpired
(python-jose raises `ExpiredSignatureError`, a `JWTError`, when
`exp < now`). `none` stands for a raised `JWTError`. -/
def jwt_decode (t : SignedToken) (secret : String) (now : Nat) : Option JWTPayload :=
  if t.signedWith == secret then
    if t.payload.exp < now then none else some t.payload
  else none

/-- `JWT_EXP_SECONDS = 3600` (src/main.py line 41). -/
def JWT_EXP_SECONDS : Nat := 3600

/-- `generate_token(user_id, email, expires_in, typ)` (src/main.py lines
47-56): payload with `iat = now`, `exp = now + expires_in`, signed with the
server secret. -/
def generate_token (secret : String) (user_id : String) (email : String)
    (expires_in : Nat) (typ : String) (now : Nat) : SignedToken :=
  jwt_encode ⟨user_id, email, now, now + expires_in, typ⟩ secret

/-- `generate_jwt(user_id, email)` (src/main.py lines 58-59). -/
def generate_jwt (secret : String) (user_id : String) (email : String)
    (now : Nat) : SignedToken :=
  generate_token secret user_id email JWT_EXP_SECONDS "access" now

/-- Failure modes of `require_auth`, all reported as HTTP 401. -/
inductive AuthError where
  | missingHeader
  | invalidToken
  | invalidType
deriving DecidableEq, Repr

/-- The `Authorization` header once the framework has delivered it:
`bearerScheme` is whether the raw header starts with the literal
`"Bearer "`, `token` the remainder after stripping that scheme. -/
structure AuthHeader where
  bearerScheme : Bool
  token : SignedToken
deriving DecidableEq, Repr

/-- `require_auth(authorization)` (src/main.py lines 61-71): missing or
non-`Bearer` header is rejected, then the token is decoded with the server
secret, then the `typ` claim must equal `"access"`. -/
def require_auth (authorization : Option AuthHeader) (secret : String)
    (now : Nat) : Except AuthError JWTPayload :=
  match authorization with
  | none => .error .missingHeader
  | some h =>
    if !h.bearerScheme then .error .missingHeader
    else
      match jwt_decode h.token secret now with
      | none => .error .invalidToken
      | some payload =>
          if payload.typ == "access" then .ok payload
          else .error .invalidType

/-- A message delivered to the Pub/Sub topic, the JSON built in
`publish_user_event` (src/main.py lines 89-93): event type, timestamp, and
the payload dict as key/value pairs. -/
structure Event where
  event_type : String
  timestamp : Nat
  payload : List (String × String)
deriving DecidableEq, Repr

inductive PubError where
  | publishFailed
deriving DecidableEq, Repr

/-- The Pub/Sub client state fixed at process start (src/main.py lines
74-78): `none` when `GCP_PROJECT_ID`/`PUBSUB_TOPIC` are not both set (the
module-level `publisher` stays `None`), `some ok` a configured publisher
whose `publish(...).result()` succeeds iff `ok`. -/
abbrev Bus := Option Bool

/-- `publish_user_event(event_type, payload)` (src/main.py lines 80-96):
with no configured publisher it logs and returns (a no-op success,
delivering nothing); with one, `future.result()` either succeeds, putting
the message on the bus, or raises, delivering nothing.  Returns the call's
outcome and the messages actually delivered. -/
def publish_user_event (bus : Bus) (now : Nat) (event_type : String)
    (payload : List (String × String)) : Except PubError Unit × List Event :=
  match bus with
  | none => (.ok (), [])
  | some true => (.ok (), [⟨event_type, now, payload⟩])
  | some false => (.error .publishFailed, [])

/-- HTTP-level failures a handler can produce. -/
inductive ApiError where
  | unauthorized
  | forbidden
  | notFound
  | serverError
deriving DecidableEq, Repr

/-- The verified Google claim set used by `google_login` (src/main.py lines
185-186): `google_info["email"]` is required, `google_info.get("name", ...)`
may be absent. -/
structure GoogleInfo where
  email : String
  name : Option String
deriving DecidableEq, Repr

/-- The success body of `POST /auth/google` (src/main.py lines 223-233):
the minted JWT and the user row's fields. -/
structure LoginResponse where
  access_jwt : SignedToken
  user : Account
deriving DecidableEq, Repr

/-- The skeleton user constructed at first login (src/main.py lines
197-204): fresh id, verified email and name, no phone/bio/location; the
`created_at`/`updated_at` column defaults fire at insert time. -/
def skeletonUser (new_user_id : String) (email : String) (name : String)
    (now : Nat) : Account :=
  ⟨new_user_id, some name, email, none, none, none, now, now⟩

/-- `google_login(google_token)` (src/main.py lines 165-233).
`verified` is the outcome of `id_token.verify_oauth2_token` (`none` when it
raises `ValueError`); `new_user_id` the `uuid.uuid4()` drawn; `db_lookup`
the table as seen by the `db.query(...).first()` read and `db_commit` the
table the unique constraint is checked against at `db.commit()` — they
differ exactly when a concurrent request inserts between the two.  The
`db.commit()` call is not wrapped in any try/except, so a uniqueness
violation (`IntegrityError`) propagates as an internal error and the
session rolls back; only the event publish is wrapped (lines 210-217), so a
publish failure is swallowed.  Returns the response, the resulting table,
and the delivered events. -/
def google_login (secret : String) (verified : Option GoogleInfo)
    (new_user_id : String) (db_lookup : Store) (db_commit : Store)
    (bus : Bus) (now : Nat) :
    Except ApiError LoginResponse × Store × List Event :=
  match verified with
  | none => (.error .unauthorized, db_commit, [])
  | some info =>
    let email := info.email
    let name := info.name.getD "Unknown User"
    match db_lookup.find? (fun a => a.email == email) with
    | some user_db =>
        (.ok ⟨generate_jwt secret user_db.id user_db.email now, user_db⟩,
         db_commit, [])
    | none =>
        let user_db := skeletonUser new_user_id email name now
        if db_commit.any (fun a => a.email == email || a.id == new_user_id) then
          -- IntegrityError from db.commit(): unhandled, 500, rollback
          (.error .serverError, db_commit, [])
        else
          let db2 := db_commit ++ [user_db]
          let pub := publish_user_event bus now "USER_CREATED"
            [("id", new_user_id), ("email", email)]
          -- the publish call sits in a try/except: its failure is logged
          -- and swallowed, the login still succeeds
          (.ok ⟨generate_jwt secret new_user_id email now, user_db⟩,
           db2, pub.2)

/-- `list_users(offset, limit, name, email)` (src/main.py lines 265-284):
each filter is applied only when truthy (`if name:` / `if email:`), i.e.
present AND non-empty; then `.offset(offset).limit(limit).all()`. -/
def list_users (offset : Nat) (limit : Nat) (name : Option String)
    (email : Option String) (db : Store) : List Account :=
  let q1 := match name with
    | some n => if n == "" then db else db.filter (fun a => a.name == some n)
    | none => db
  let q2 := match email with
    | some e => if e == "" then q1 else q1.filter (fun a => a.email == e)
    | none => q1
  (q2.drop offset).take limit

/-- The defaults of `list_users`'s pagination parameters
(src/main.py line 267-268: `offset: int = 0, limit: int = 10`). -/
def LIST_DEFAULT_OFFSET : Nat := 0

def LIST_DEFAULT_LIMIT : Nat := 10

/-- The update payload type actually imported by `update_user`
(src/models/user.py lines 89-111, `UserUpdate`): a full-replace payload
with five REQUIRED fields and, notably, no `bio` and no `location`
attribute at all. -/
structure UserUpdate where
  name : String
  email : String
  phone_number : String
  housing_preference : String
  listing_group : String
deriving DecidableEq, Repr

/-- `update_user(user_id, payload, db, auth)` (src/main.py lines 296-335):
guard `auth["sub"] != user_id` → 403; lookup by id → 404 when absent;
then the body copies `payload.name` and `payload.phone_number` onto the
session row (lines 315-320), and at line 323 reads `payload.bio` — an
attribute `UserUpdate` does not define, so an `AttributeError` is raised
before `db.commit()`: the request fails 500 and the session rolls back the
uncommitted field assignments.  Returns the response, the resulting table,
and the delivered events. -/
def update_user (auth : JWTPayload) (user_id : String) (payload : UserUpdate)
    (db : Store) (_now : Nat) :
    Except ApiError Account × Store × List Event :=
  if auth.sub != user_id then (.error .forbidden, db, [])
  else
    match db.find? (fun a => a.id == user_id) with
    | none => (.error .notFound, db, [])
    | some user_db =>
        -- lines 315-320: assignments onto the session-managed row,
        -- discarded by the rollback when the AttributeError fires
        let _session_row :=
          { user_db with
            name := if payload.name == "" then user_db.name else some payload.name,
            phone_number := if payload.phone_number == "" then
              user_db.phone_number else some payload.phone_number }
        -- line 323: `if payload.bio:` → AttributeError, 500, rollback
        (.error .serverError, db, [])

/-- `delete_user(user_id, db, auth)` (src/main.py lines 338-357): guard
`str(user_id) != auth["sub"]` → 403; lookup → 404 when absent; then
`db.delete(user); db.commit()` removes the row, and only then
`publish_user_event` runs OUTSIDE any try/except — if the publish raises,
the exception propagates as a 500 even though the delete has committed. -/
def delete_user (auth : JWTPayload) (user_id : String) (db : Store)
    (bus : Bus) (now : Nat) :
    Except ApiError String × Store × List Event :=
  if user_id != auth.sub then (.error .forbidden, db, [])
  else
    match db.find? (fun a => a.id == user_id) with
    | none => (.error .notFound, db, [])
    | some _ =>
        let db2 := db.filter (fun a => !(a.id == user_id))
        let pub := publish_user_event bus now "USER_DELETED" [("id", user_id)]
        match pub.1 with
        | .ok _ => (.ok "User deleted successfully", db2, pub.2)
        | .error _ => (.error .serverError, db2, pub.2)

/-- The route table registered by the `@app` decorators in src/main.py:
every (method, path) pair the service exposes. -/
def appRoutes : List (String × String) :=
  [("GET", "/"),
   ("GET", "/test-db"),
   ("POST", "/auth/google"),
   ("GET", "/health"),
   ("GET", "/health/{path_echo}"),
   ("GET", "/users"),
   ("GET", "/users/{user_id}"),
   ("PATCH", "/users/{user_id}"),
   ("DELETE", "/users/{user_id}")]

/-- The body returned by `root()` (src/main.py lines 135-146). -/
structure RootResponse where
  message : String
  documentation : String
  endpoints : List (String × String)
deriving DecidableEq, Repr

def root : RootResponse :=
  ⟨"Welcome to the Users API.", "/docs",
   [("list_users", "/users"),
    ("create_user", "/users"),
    ("health", "/health"),
    ("test_db", "/test-db")]⟩

/-! ## Theorems about the claims -/

/-- C6: for every subject id and email, validating the header
`Bearer <issue(s, e)>` with the same server-held secret that signed the
token, before the token's expiry (issued-at plus the fixed 3600-second
TTL), succeeds and returns the claim set with subject `s` and email `e`. -/
theorem validate_issue_roundtrip (secret s e : String) (t0 now : Nat)
    (h : now < t0 + JWT_EXP_SECONDS) :
    require_auth (some ⟨true, generate_jwt secret s e t0⟩) secret now
      = .ok ⟨s, e, t0, t0 + JWT_EXP_SECONDS, "access"⟩ := by
  have hlt : ¬ (t0 + JWT_EXP_SECONDS < now) := Nat.not_lt.mpr (Nat.le_of_lt h)
  simp [require_auth, generate_jwt, generate_token, jwt_encode, jwt_decode, hlt]

/-- Witness for C6 at a concrete subject, email and time. -/
theorem validate_issue_roundtrip_witness :
    require_auth (some ⟨true, generate_jwt "k" "u1" "a@x.com" 0⟩) "k" 10
      = .ok ⟨"u1", "a@x.com", 0, 0 + JWT_EXP_SECONDS, "access"⟩ :=
  validate_issue_roundtrip "k" "u1" "a@x.com" 0 10 (by decide)

/-- C7: a token whose `typ` tag is not `"access"` fails validation with the
invalid-type error even when it is signed with the service's own secret and
is unexpired. -/
theorem non_access_token_rejected (secret : String) (p : JWTPayload)
    (now : Nat) (htyp : p.typ ≠ "access") (hexp : ¬ p.exp < now) :
    require_auth (some ⟨true, jwt_encode p secret⟩) secret now
      = .error .invalidType := by
  simp [require_auth, jwt_encode, jwt_decode, hexp, htyp]

/-- Witness for C7: a well-signed, unexpired `"refresh"`-typed token is
rejected. -/
theorem non_access_token_rejected_witness :
    require_auth (some ⟨true, jwt_encode ⟨"u1", "a@x.com", 0, 3600, "refresh"⟩ "k"⟩) "k" 5
      = .error .invalidType :=
  non_access_token_rejected "k" ⟨"u1", "a@x.com", 0, 3600, "refresh"⟩ 5
    (by decide) (by decide)

/-- C5: for update and delete, a valid session token whose subject differs
from the addressed Account id yields the forbidden error with the store
untouched and nothing published, regardless of whether the Account exists
(the guard runs before the existence lookup); when the subject equals the
id, the guard lets the operation proceed — the outcome is never the
forbidden error. -/
theorem authorization_guard (auth : JWTPayload) (user_id : String)
    (payload : UserUpdate) (db : Store) (bus : Bus) (now : Nat) :
    (auth.sub ≠ user_id →
        update_user auth user_id payload db now = (.error .forbidden, db, []) ∧
        delete_user auth user_id db bus now = (.error .forbidden, db, [])) ∧
    (auth.sub = user_id →
        (update_user auth user_id payload db now).1 ≠ .error .forbidden ∧
        (delete_user auth user_id db bus now).1 ≠ .error .forbidden) := by
  constructor
  · intro h
    refine ⟨?_, ?_⟩
    · simp [update_user, h]
    · simp [delete_user, Ne.symm h]
  · intro h
    subst h
    refine ⟨?_, ?_⟩
    · unfold update_user
      simp only [bne_self_eq_false, Bool.false_eq_true, if_false]
      cases hf : db.find? (fun a => a.id == auth.sub) <;> simp
    · unfold delete_user
      simp only [bne_self_eq_false, Bool.false_eq_true, if_false]
      cases hf : db.find? (fun a => a.id == auth.sub)
      · simp
      · cases bus with
        | none => simp [publish_user_event]
        | some b => cases b <;> simp [publish_user_event]

/-- Witness for C5 at concrete inputs: subject `u1` against Account id
`u2` is forbidden; against its own id `u1` it is not. -/
theorem authorization_guard_witness :
    (update_user ⟨"u1", "a@x.com", 0, 3600, "access"⟩ "u2"
        ⟨"Ada", "e@x.com", "+12015550100", "apartment", "zillow"⟩ [] 0
      = (.error .forbidden, [], [])) ∧
    ((update_user ⟨"u1", "a@x.com", 0, 3600, "access"⟩ "u1"
        ⟨"Ada", "e@x.com", "+12015550100", "apartment", "zillow"⟩ [] 0).1
      ≠ .error .forbidden) :=
  ⟨((authorization_guard ⟨"u1", "a@x.com", 0, 3600, "access"⟩ "u2"
      ⟨"Ada", "e@x.com", "+12015550100", "apartment", "zillow"⟩ [] none 0).1
      (by decide)).1,
   ((authorization_guard ⟨"u1", "a@x.com", 0, 3600, "access"⟩ "u1"
      ⟨"Ada", "e@x.com", "+12015550100", "apartment", "zillow"⟩ [] none 0).2
      rfl).1⟩

/-- C9: update never changes any Account's id, email or created_at — in
this code no branch of the handler commits anything (the guard, the lookup
and the AttributeError all leave the table as it was), so those columns are
preserved for every payload. -/
theorem update_preserves_id_email_created (auth : JWTPayload)
    (user_id : String) (payload : UserUpdate) (db : Store) (now : Nat) :
    ((update_user auth user_id payload db now).2.1).map
        (fun a => (a.id, a.email, a.created_at))
      = db.map (fun a => (a.id, a.email, a.created_at)) := by
  suffices hdb : (update_user auth user_id payload db now).2.1 = db by
    rw [hdb]
  unfold update_user
  split
  · rfl
  · split <;> rfl

/-- C10: with its declared defaults (`offset = 0`, `limit = 10`) and no
filters, list returns the first 10 Accounts in store-native order — never
more than 10, even when more exist. -/
theorem list_users_default_pagination (db : Store) :
    list_users LIST_DEFAULT_OFFSET LIST_DEFAULT_LIMIT none none db
        = db.take 10 ∧
    (list_users LIST_DEFAULT_OFFSET LIST_DEFAULT_LIMIT none none db).length
        ≤ 10 := by
  constructor
  · simp [list_users, LIST_DEFAULT_OFFSET, LIST_DEFAULT_LIMIT]
  · simp [list_users, LIST_DEFAULT_OFFSET, LIST_DEFAULT_LIMIT]

/-- A concrete stored row used by several concrete checks below. -/
def acctU1 : Account := ⟨"u1", some "Bob", "bob@x.com", none, none, none, 0, 0⟩

/-- C2: the update handler never reaches its field-copy/commit path — the
imported `UserUpdate` (src/models/user.py) defines no `bio` attribute, so
`payload.bio` at src/main.py line 323 raises `AttributeError` for every
payload: once the guard passes and the Account exists, update always
answers with an internal error, commits nothing and publishes nothing. -/
theorem update_always_internal_error (auth : JWTPayload) (user_id : String)
    (payload : UserUpdate) (db : Store) (now : Nat)
    (hsub : auth.sub = user_id)
    (hfound : (db.find? (fun a => a.id == user_id)).isSome = true) :
    update_user auth user_id payload db now
      = (.error .serverError, db, []) := by
  subst hsub
  unfold update_user
  simp only [bne_self_eq_false, Bool.false_eq_true, if_false]
  cases hf : db.find? (fun a => a.id == auth.sub) with
  | none => rw [hf] at hfound; simp at hfound
  | some u => rfl

/-- Witness for C2: the failing input — a valid full payload, the caller's
own existing Account — still ends in the internal error, store unchanged,
no event. -/
theorem update_always_internal_error_witness :
    update_user ⟨"u1", "bob@x.com", 0, 3600, "access"⟩ "u1"
        ⟨"Ada", "ada@x.com", "+12015550100", "apartment", "zillow"⟩ [acctU1] 7
      = (.error .serverError, [acctU1], []) :=
  update_always_internal_error ⟨"u1", "bob@x.com", 0, 3600, "access"⟩ "u1"
    ⟨"Ada", "ada@x.com", "+12015550100", "apartment", "zillow"⟩ [acctU1] 7
    rfl (by decide)

/-- C4 counterexample: the public surface registers no create operation —
there is no `POST /users` route in the table built by the `@app`
decorators of src/main.py. -/
theorem no_post_users_route : ("POST", "/users") ∉ appRoutes := by decide

/-- C4 (amended): the only handler registered at `/users` is the GET
(list) one, while the root endpoint's directory still advertises a
`create_user` operation at `/users`; no create — and hence no
conflict-on-collision behaviour — exists. -/
theorem create_endpoint_absent :
    appRoutes.filter (fun r => r.2 == "/users") = [("GET", "/users")] ∧
    ("create_user", "/users") ∈ root.endpoints := by decide

/-- Formalisation of the spec's words for `list` (§4.6): an Account
matches the conjunction of all supplied exact-match filters, and unset
filters are ignored.  Stated from the spec, to be compared against the
code's `list_users`. -/
def spec_list_matches (name : Option String) (email : Option String)
    (a : Account) : Bool :=
  (match name with | some n => a.name == some n | none => true) &&
  (match email with | some e => a.email == e | none => true)

def acctBlankName : Account := ⟨"w1", some "", "w1@x.com", none, none, none, 0, 0⟩

def acctAlpha : Account := ⟨"w2", some "Alpha", "w2@x.com", none, none, none, 0, 0⟩

/-- C8 counterexample: with the supplied exact-match name filter `""` the
code returns an Account that does not match the filter conjunction — the
handler tests truthiness (`if name:`), so a present-but-empty filter is
silently dropped instead of matched against. -/
theorem list_users_empty_filter_cex :
    acctAlpha ∈ list_users 0 10 (some "") none [acctBlankName, acctAlpha] ∧
    spec_list_matches (some "") none acctAlpha = false := by decide

/-- C8 (amended): for every combination of filters in which each supplied
filter is a non-empty string, list returns exactly the Accounts matching
the conjunction of the supplied exact-match filters, in store-native order
after offset and limit; the result type is a plain sequence, so no
combination errors and zero matches give the empty sequence. -/
theorem list_users_filter_conjunction (offset limit : Nat)
    (name email : Option String) (db : Store)
    (hn : name ≠ some "") (he : email ≠ some "") :
    list_users offset limit name email db
      = ((db.filter (spec_list_matches name email)).drop offset).take limit := by
  cases name with
  | none =>
    cases email with
    | none =>
      have hfil : db.filter (spec_list_matches none none) = db :=
        List.filter_eq_self.mpr (fun a _ => rfl)
      simp [list_users, hfil]
    | some e =>
      have he2 : (e == "") = false :=
        beq_eq_false_iff_ne.mpr (fun h => he (by rw [h]))
      simp only [list_users, he2, Bool.false_eq_true, if_false]
      rfl
  | some n =>
    have hn2 : (n == "") = false :=
      beq_eq_false_iff_ne.mpr (fun h => hn (by rw [h]))
    cases email with
    | none =>
      have hfil : db.filter (spec_list_matches (some n) none)
          = db.filter (fun a => a.name == some n) :=
        List.filter_congr (fun x _ => Bool.and_true _)
      simp [list_users, hn2, hfil]
    | some e =>
      have he2 : (e == "") = false :=
        beq_eq_false_iff_ne.mpr (fun h => he (by rw [h]))
      simp only [list_users, spec_list_matches, hn2, he2, Bool.false_eq_true,
        if_false, List.filter_filter]
      refine congrArg (List.take limit) (congrArg (List.drop offset) ?_)
      exact List.filter_congr (fun x _ => Bool.and_comm _ _)

/-- Witness for C8 at concrete inputs: a non-empty name filter selects
exactly the matching Account. -/
theorem list_users_filter_conjunction_witness :
    list_users 0 10 (some "Alpha") none [acctBlankName, acctAlpha]
      = (([acctBlankName, acctAlpha].filter
            (spec_list_matches (some "Alpha") none)).drop 0).take 10 :=
  list_users_filter_conjunction 0 10 (some "Alpha") none
    [acctBlankName, acctAlpha] (by decide) (by decide)

/-- Helper: a table in which no row carries the given email (nor the given
id) yields no hit for the login lookup by that email. -/
theorem find?_email_none_of_fresh (l : Store) (email uid : String)
    (h : l.any (fun a => a.email == email || a.id == uid) = false) :
    l.find? (fun a => a.email == email) = none := by
  rw [List.find?_eq_none]
  intro a ha
  have h2 := List.any_eq_false.mp h a ha
  simp at h2 ⊢
  exact h2.1

def acctAlice : Account :=
  ⟨"a1", some "Alice", "alice@example.com", none, none, none, 0, 0⟩

/-- C1 counterexample: the first-login race is NOT absorbed — when the
lookup sees no row for `alice@example.com` but a concurrent request has
inserted one by commit time, the uniqueness violation propagates and the
login answers with an internal error instead of re-fetching the row. -/
theorem login_race_cex :
    google_login "k" (some ⟨"alice@example.com", some "Alice"⟩) "a2"
        [] [acctAlice] (some true) 5
      = (.error .serverError, [acctAlice], []) := by rfl

/-- C1 (amended): when the login-time insert hits the uniqueness
constraint because a concurrent request inserted the same email, the
handler has no rescue path — the error propagates, the failing login emits
no event and leaves the store as the concurrent request left it.
Sequential repetition is idempotent: the first login for a fresh identity
creates the Account and delivers exactly one CREATED event, the second
finds that row, mutates nothing, emits nothing, and exactly one Account
carries the email. -/
theorem login_race_fails_sequential_idempotent
    (secret email nm id1 id2 : String) (db dbl dbc : Store) (bus : Bus)
    (t1 t2 : Nat)
    (hfresh : db.any (fun a => a.email == email || a.id == id1) = false)
    (hrace1 : dbl.find? (fun a => a.email == email) = none)
    (hrace2 : dbc.any (fun a => a.email == email || a.id == id2) = true) :
    google_login secret (some ⟨email, some nm⟩) id2 dbl dbc bus t2
      = (.error .serverError, dbc, []) ∧
    google_login secret (some ⟨email, some nm⟩) id1 db db (some true) t1
      = (.ok ⟨generate_jwt secret id1 email t1, skeletonUser id1 email nm t1⟩,
         db ++ [skeletonUser id1 email nm t1],
         [⟨"USER_CREATED", t1, [("id", id1), ("email", email)]⟩]) ∧
    google_login secret (some ⟨email, some nm⟩) id2
        (db ++ [skeletonUser id1 email nm t1])
        (db ++ [skeletonUser id1 email nm t1]) (some true) t2
      = (.ok ⟨generate_jwt secret id1 email t2, skeletonUser id1 email nm t1⟩,
         db ++ [skeletonUser id1 email nm t1], []) ∧
    (db ++ [skeletonUser id1 email nm t1]).countP (fun a => a.email == email)
      = 1 := by
  have h1 := find?_email_none_of_fresh db email id1 hfresh
  refine ⟨?_, ?_, ?_, ?_⟩
  · simp [google_login, hrace1, hrace2]
  · simp [google_login, h1, hfresh, publish_user_event]
  · have h3 : (db ++ [skeletonUser id1 email nm t1]).find?
        (fun a => a.email == email) = some (skeletonUser id1 email nm t1) := by
      rw [List.find?_append, h1]
      simp [skeletonUser]
    simp only [google_login]
    rw [h3]
    rfl
  · have h4 : db.countP (fun a => a.email == email) = 0 := by
      rw [List.countP_eq_zero]
      intro a ha
      have h2 := List.any_eq_false.mp hfresh a ha
      simp at h2 ⊢
      exact h2.1
    simp [List.countP_append, List.countP_cons, h4, skeletonUser]

/-- Witness for C1 at concrete inputs: the first login for a fresh
identity creates the skeleton Account and delivers one CREATED event. -/
theorem login_sequential_witness :
    google_login "k" (some ⟨"alice@example.com", some "Alice"⟩) "a1"
        [] [] (some true) 0
      = (.ok ⟨generate_jwt "k" "a1" "alice@example.com" 0,
             skeletonUser "a1" "alice@example.com" "Alice" 0⟩,
         [skeletonUser "a1" "alice@example.com" "Alice" 0],
         [⟨"USER_CREATED", 0, [("id", "a1"), ("email", "alice@example.com")]⟩]) :=
  (login_race_fails_sequential_idempotent "k" "alice@example.com" "Alice"
      "a1" "a2" [] [] [acctAlice] (some true) 0 5
      (by decide) (by decide) (by decide)).2.1

/-- C3 counterexample: with a configured bus whose publish fails, deleting
one's own existing Account commits the removal (the store loses the row)
and yet the caller receives an internal error — the publish failure is
surfaced, not swallowed. -/
theorem delete_publish_failure_cex :
    delete_user ⟨"u1", "bob@x.com", 0, 3600, "access"⟩ "u1" [acctU1]
        (some false) 7
      = (.error .serverError, [], []) := by rfl

/-- C3 (amended): with no bus topic configured, publish is a no-op that
returns success; the login-time create wraps its publish in try/except, so
its failure is swallowed and the login still succeeds; but the delete
handler calls publish outside any try/except, so a publish failure
surfaces to the caller as an internal error even though the delete has
already committed (the row is gone). -/
theorem publish_failure_handling
    (now t : Nat) (et : String) (pl : List (String × String))
    (secret email nm nid uid : String) (db dbd : Store) (auth : JWTPayload)
    (hfresh : db.any (fun a => a.email == email || a.id == nid) = false)
    (hsub : auth.sub = uid)
    (hfound : (dbd.find? (fun a => a.id == uid)).isSome = true) :
    publish_user_event none now et pl = (.ok (), []) ∧
    (google_login secret (some ⟨email, some nm⟩) nid db db (some false) t).1
      = .ok ⟨generate_jwt secret nid email t, skeletonUser nid email nm t⟩ ∧
    ((delete_user auth uid dbd (some false) t).1 = .error .serverError ∧
     (delete_user auth uid dbd (some false) t).2.1
       = dbd.filter (fun a => !(a.id == uid))) := by
  refine ⟨rfl, ?_, ?_⟩
  · have h1 := find?_email_none_of_fresh db email nid hfresh
    simp [google_login, h1, hfresh, publish_user_event]
  · subst hsub
    unfold delete_user
    simp only [bne_self_eq_false, Bool.false_eq_true, if_false]
    cases hf : dbd.find? (fun a => a.id == auth.sub) with
    | none => rw [hf] at hfound; simp at hfound
    | some u => exact ⟨rfl, rfl⟩

/-- Witness for C3 at concrete inputs: the delete of one's own Account
with a failing publisher surfaces the internal error. -/
theorem publish_failure_handling_witness :
    (delete_user ⟨"u1", "bob@x.com", 0, 3600, "access"⟩ "u1" [acctU1]
        (some false) 7).1
      = .error .serverError :=
  (publish_failure_handling 0 7 "E" [] "k" "alice@example.com" "Alice" "a9"
      "u1" [] [acctU1] ⟨"u1", "bob@x.com", 0, 3600, "access"⟩
      (by decide) rfl (by decide)).2.2.1

end UsersService
